import Mathlib

/-!
Verification of the translate-services repository (Go).

Shallow embedding conventions:
* Go `string` is Lean `String`; rune iteration uses `String.data` (`List Char`).
* Go byte values are `Nat` with explicit `% 256` / `% 2 ^ 32` where overflow matters.
* Go `float64` constants (all exact decimal literals in this code base) are `Rat`.
* A Go pointer that may be nil is `Option`; every `return &T{...}` site is `some`.
* Effectful calls (HTTP attempts, cache reads, clocks) are oracles: explicit
  environment records passed to the embedded functions.
* Go `strings.ToLower` / `strings.ToUpper` / `strings.EqualFold` are modelled by
  their ASCII case-folding action; every input these functions receive in the
  verified properties (language codes, service names, field tokens) is ASCII.
-/

namespace TranslateServices

/-! ## Go string primitives used by the sources -/

/-- ASCII action of Go `strings.ToLower` on one rune. -/
def toLowerChar (c : Char) : Char :=
  if 'A' ≤ c ∧ c ≤ 'Z' then Char.ofNat (c.toNat + 32) else c

/-- ASCII action of Go `strings.ToUpper` on one rune. -/
def toUpperChar (c : Char) : Char :=
  if 'a' ≤ c ∧ c ≤ 'z' then Char.ofNat (c.toNat - 32) else c

/-- Go `strings.ToLower` (ASCII action). -/
def goToLower (s : String) : String := String.mk (s.data.map toLowerChar)

/-- Go `strings.ToUpper` (ASCII action). -/
def goToUpper (s : String) : String := String.mk (s.data.map toUpperChar)

/-- Go `strings.EqualFold` (ASCII simple case folding). -/
def goEqualFold (s t : String) : Bool := goToLower s == goToLower t

/-- Go `unicode.IsSpace`: the White_Space code points. -/
def isSpaceGo (c : Char) : Bool :=
  c == ' ' || c == '\t' || c == '\n' || c.toNat == 0x0B || c.toNat == 0x0C ||
  c == '\r' || c.toNat == 0x85 || c.toNat == 0xA0 || c.toNat == 0x1680 ||
  (0x2000 ≤ c.toNat && c.toNat ≤ 0x200A) || c.toNat == 0x2028 ||
  c.toNat == 0x2029 || c.toNat == 0x202F || c.toNat == 0x205F ||
  c.toNat == 0x3000

/-- Go `strings.TrimSpace`: drop leading and trailing white space. -/
def goTrimSpace (s : String) : String :=
  String.mk (((s.data.dropWhile isSpaceGo).reverse.dropWhile isSpaceGo).reverse)

/-- Go `strings.HasPrefix`. -/
def goHasPrefixStr (s pre : String) : Bool := pre.data.isPrefixOf s.data

/-! ## `internal/langutil` (detect.go, slice.go) -/

namespace Langutil

/-- `langutil.IsCJK`: CJK ideograph ranges (detect.go). -/
def IsCJK (r : Char) : Bool :=
  (0x4E00 ≤ r.toNat && r.toNat ≤ 0x9FFF) ||
  (0x3400 ≤ r.toNat && r.toNat ≤ 0x4DBF) ||
  (0x20000 ≤ r.toNat && r.toNat ≤ 0x2A6DF)

/-- `langutil.IsCyrillic` (detect.go). -/
def IsCyrillic (r : Char) : Bool := 0x0400 ≤ r.toNat && r.toNat ≤ 0x04FF

/-- `langutil.IsJapanese`: Hiragana and Katakana (detect.go). -/
def IsJapanese (r : Char) : Bool :=
  (0x3040 ≤ r.toNat && r.toNat ≤ 0x309F) ||
  (0x30A0 ≤ r.toNat && r.toNat ≤ 0x30FF)

/-- `langutil.IsKorean`: Hangul syllables (detect.go). -/
def IsKorean (r : Char) : Bool := 0xAC00 ≤ r.toNat && r.toNat ≤ 0xD7AF

/-- `langutil.NormalizeLanguageCode` (detect.go): lower-case, then map through
the fixed code table, defaulting to the lowered code itself. -/
def NormalizeLanguageCode (code : String) : String :=
  let code := goToLower code
  if code == "zh" || code == "zh-hans" then "zh-CN"
  else if code == "zh-hant" then "zh-TW"
  else if code == "en" || code == "en-us" then "en"
  else if code == "en-gb" then "en-GB"
  else if code == "ja" then "ja"
  else if code == "ko" then "ko"
  else if code == "fr" then "fr"
  else if code == "de" then "de"
  else if code == "es" then "es"
  else if code == "ru" then "ru"
  else if code == "pt" || code == "pt-br" then "pt"
  else if code == "it" then "it"
  else if code == "ar" then "ar"
  else code

/-- The rune scan of `langutil.DetectLanguage`: per character, test CJK, then
Cyrillic, then Japanese, then Korean; fall through to the next character. -/
def detectScan : List Char → String
  | [] => "en"
  | r :: rest =>
    if IsCJK r then "zh-CN"
    else if IsCyrillic r then "ru"
    else if IsJapanese r then "ja"
    else if IsKorean r then "ko"
    else detectScan rest

/-- `langutil.DetectLanguage` (detect.go). -/
def DetectLanguage (text requested : String) : String :=
  if goTrimSpace requested ≠ "" && !goEqualFold requested "auto" then
    NormalizeLanguageCode requested
  else
    detectScan text.data

/-- `langutil.Includes` (slice.go): linear membership scan. -/
def Includes : List String → String → Bool
  | [], _ => false
  | v :: rest, target => if v == target then true else Includes rest target

/-- Spec-side comparison definition ("a recognized script range"): a rune
belongs to one of the four recognized script families. -/
def recognizedScript (r : Char) : Bool :=
  IsCJK r || IsCyrillic r || IsJapanese r || IsKorean r

/-- Spec-side comparison definition: the language code of one recognized
rune ("zh-CN for CJK ideographs, ru for Cyrillic, ja for Hiragana/Katakana,
ko for Hangul"). -/
def scriptCode (r : Char) : String :=
  if IsCJK r then "zh-CN"
  else if IsCyrillic r then "ru"
  else if IsJapanese r then "ja"
  else if IsKorean r then "ko"
  else "en"

/-- Spec-side comparison definition: the code of the FIRST character falling
in a recognized script range, "en" when no character matches. -/
def firstScriptScan (text : List Char) : String :=
  match text.find? recognizedScript with
  | some r => scriptCode r
  | none => "en"

end Langutil

/-! ## `internal/translation` response model (model.go) -/

namespace Translation

/-- `translation.Sentence`. Absent struct fields default to Go zero values. -/
structure Sentence where
  Orig : String := ""
  Trans : String := ""
  Backend : Nat := 0
  SrcTranslit : String := ""
  Translit : String := ""
  deriving Repr, DecidableEq

/-- `translation.DictEntry`. -/
structure DictEntry where
  Word : String := ""
  ReverseTranslation : List String := []
  Score : Rat := 0
  deriving Repr, DecidableEq

/-- `translation.Dictionary`. -/
structure Dictionary where
  Pos : String := ""
  Entry : List DictEntry := []
  deriving Repr, DecidableEq

/-- `translation.SpellCheck`. -/
structure SpellCheck where
  SpellRes : String := ""
  deriving Repr, DecidableEq

/-- `translation.LanguageDetectionResult`. -/
structure LanguageDetectionResult where
  Srclangs : List String := []
  SrclangsConfidences : List Rat := []
  deriving Repr, DecidableEq

/-- `translation.Alternative`. -/
structure Alternative where
  WordPostproc : String := ""
  Score : Rat := 0
  HasPrecedingSpace : Bool := false
  AttachToNextToken : Bool := false
  deriving Repr, DecidableEq

/-- `translation.AlternativeTranslation`. -/
structure AlternativeTranslation where
  SrcPhrase : String := ""
  RawSrcSegment : String := ""
  Alternative : List Alternative := []
  deriving Repr, DecidableEq

/-- `translation.Example`. `LabelInfo` is a nilable pointer. -/
structure Example where
  Text : String := ""
  SourceType : Nat := 0
  LabelInfoSubject : Option (List String) := none
  deriving Repr, DecidableEq

/-- `translation.Examples`. -/
structure Examples where
  Examples : List Example := []
  deriving Repr, DecidableEq

/-- `translation.Response`. Nilable pointer fields are `Option`; nil slices
are empty lists (Go treats both the same for the properties verified here). -/
structure Response where
  Src : String := ""
  Sentences : List Sentence := []
  Dict : List Dictionary := []
  Spell : Option SpellCheck := none
  LDResult : Option LanguageDetectionResult := none
  AlternativeTranslations : List AlternativeTranslation := []
  Examples : Option Examples := none
  deriving Repr, DecidableEq

end Translation

/-! ## `internal/translator/deeplx` retrying client (translator.go) -/

namespace Deeplx

/-- `deeplx.TranslationResponse`: the provider payload after `json.Unmarshal`. -/
structure TranslationResponse where
  Alternatives : List String := []
  Code : Nat := 0
  Data : String := ""
  Id : Int := 0
  Method : String := ""
  SourceLang : String := ""
  TargetLang : String := ""
  deriving Repr, DecidableEq

/-- `deeplx.TranslationResult`. -/
structure TranslationResult where
  Success : Bool := false
  TranslatedText : String := ""
  SourceLang : String := ""
  TargetLang : String := ""
  ErrorMessage : String := ""
  RawResponse : Option TranslationResponse := none
  deriving Repr, DecidableEq

/-- Translator state relevant to control flow (`deeplx.DeepLXTranslator`).
`apiKey`/`baseURL`/timeouts shape the URL and the per-attempt deadline but do
not influence which branch of `doRequest` runs, given the attempt outcomes. -/
structure DeepLXTranslator where
  apiKey : String := ""
  baseURL : String := ""
  requestTimeoutSec : Nat := 0
  maxRetryAttempt : Nat := 0
  deriving Repr, DecidableEq

/-- `deeplx.NewTranslator` (translator.go): reject keys not starting `sk-`,
else build the translator with 10 s request timeout and 2 max retries. -/
def NewTranslator (apiKey : String) : Option DeepLXTranslator :=
  if apiKey == "" || !goHasPrefixStr apiKey "sk-" then none
  else some
    { apiKey := apiKey
      baseURL := "https://deeplx.jayogo.com/translate"
      requestTimeoutSec := 10
      maxRetryAttempt := 2 }

/-- `deeplx.DeepLXTranslator.buildURL` (translator.go). -/
def buildURL (t : DeepLXTranslator) (model : String) : String :=
  if model ≠ "" then t.baseURL ++ "/" ++ t.apiKey ++ "/" ++ model
  else t.baseURL ++ "/" ++ t.apiKey

/-- `deeplx.DeepLXTranslator.shouldRetryStatus`: retry any 5xx status. -/
def shouldRetryStatus (status : Nat) : Bool := 500 ≤ status && status < 600

/-- `deeplx.DeepLXTranslator.shouldRetry`: transient net errors
(`ne.Timeout() || ne.Temporary()`); a transport error is carried with its
classification bits by the oracle. -/
def shouldRetryNet (timeout temporary : Bool) : Bool := timeout || temporary

/-- `deeplx.DeepLXTranslator.backoff` (translator.go): linear back-off,
`200*(attempt+1)` milliseconds. -/
def backoff (attempt : Nat) : Nat := 200 * (attempt + 1)

/-- Outcome of one upstream attempt, as observed by `doRequest`:
either `http.NewRequestWithContext` fails, or `httpClient.Do` fails with
transience bits, or `io.ReadAll` fails, or an HTTP response arrives with a
status, a raw body string, and the result of `json.Unmarshal` on that body
(`.error msg` = malformed payload). -/
inductive AttemptOutcome where
  | buildError (msg : String)
  | doError (timeout temporary : Bool) (msg : String)
  | readError (msg : String)
  | httpResp (status : Nat) (body : String) (parsed : Except String TranslationResponse)
  deriving Repr

/-- The effect oracle for `doRequest`: `ctxErr n` is the value of `ctx.Err()`
sampled at the top of iteration `n`, and `outcome n` is what the n-th upstream
attempt produces. -/
structure HttpEnv where
  ctxErr : Nat → Option String
  outcome : Nat → AttemptOutcome

/-- Observable effects of one `doRequest` run: how many times
`httpClient.Do` was invoked, and the back-off durations slept (ms), in order. -/
structure RunStats where
  calls : Nat
  sleeps : List Nat
  deriving Repr, DecidableEq

/-- What one iteration of the `doRequest` retry loop decides: return a result
now (`stop`, recording whether `httpClient.Do` ran this iteration), or sleep
the back-off and go around again with an updated `lastErr` (`retry`). -/
inductive StepDecision where
  | stop (result : TranslationResult) (didCall : Bool)
  | retry (lastErr : String)
  deriving Repr

/-- The branch logic of one iteration of `doRequest` (translator.go lines
153-249): the `ctx.Err()` guard, then the five outcomes of the attempt, with
the source's retry conditions (`shouldRetry`, `attempt < maxRetryAttempt`,
`shouldRetryStatus`) and error-message formats. -/
def decideStep (maxR attempt : Nat) (ctxE : Option String)
    (out : AttemptOutcome) : StepDecision :=
  match ctxE with
  | some e =>
    .stop { Success := false, ErrorMessage := "请求已取消: " ++ e } false
  | none =>
    match out with
    | .buildError msg =>
      .stop { Success := false, ErrorMessage := "创建请求失败: " ++ msg } false
    | .doError timeout temporary msg =>
      let lastErr := "请求失败: " ++ msg
      if shouldRetryNet timeout temporary && attempt < maxR then .retry lastErr
      else .stop { Success := false, ErrorMessage := lastErr } true
    | .readError msg =>
      let lastErr := "读取响应失败: " ++ msg
      if attempt < maxR then .retry lastErr
      else .stop { Success := false, ErrorMessage := lastErr } true
    | .httpResp status body parsed =>
      if status ≠ 200 then
        let lastErr := "HTTP " ++ toString status ++ ": " ++ body
        if shouldRetryStatus status && attempt < maxR then .retry lastErr
        else .stop { Success := false, ErrorMessage := lastErr } true
      else
        match parsed with
        | .error msg =>
          let lastErr := "解析响应失败: " ++ msg
          if attempt < maxR then .retry lastErr
          else .stop { Success := false, ErrorMessage := lastErr } true
        | .ok tr =>
          .stop { Success := true
                  TranslatedText := tr.Data
                  SourceLang := tr.SourceLang
                  TargetLang := tr.TargetLang
                  RawResponse := some tr } true

/-- The retry loop of `deeplx.DeepLXTranslator.doRequest`
(translator.go, `for attempt := 0; attempt <= t.maxRetryAttempt; attempt++`).
`fuel` is the number of remaining loop iterations (`maxRetryAttempt + 1 -
attempt`); when it is zero the loop has exited and the trailing
`return &TranslationResult{Success: false, ErrorMessage: lastErr}` runs.
Every Go return site is `&TranslationResult{...}`, embedded as `some`. -/
def doRequestLoop (maxR : Nat) (env : HttpEnv) :
    Nat → String → Nat → Option TranslationResult × RunStats
  | _, lastErr, 0 =>
    (some { Success := false, ErrorMessage := lastErr }, ⟨0, []⟩)
  | attempt, _, fuel + 1 =>
    match decideStep maxR attempt (env.ctxErr attempt) (env.outcome attempt) with
    | .stop result didCall => (some result, ⟨if didCall then 1 else 0, []⟩)
    | .retry lastErr2 =>
      let r := doRequestLoop maxR env (attempt + 1) lastErr2 fuel
      (r.1, ⟨r.2.calls + 1, backoff attempt :: r.2.sleeps⟩)

/-- `deeplx.DeepLXTranslator.doRequest` (translator.go). `json.Marshal` of a
struct of three strings cannot fail, so the serialization guard at the top of
the Go function is not a branch point; the loop then runs from attempt 0 with
`lastErr` empty and exactly `maxRetryAttempt + 1` available iterations. -/
def doRequest (t : DeepLXTranslator) (env : HttpEnv) :
    Option TranslationResult × RunStats :=
  doRequestLoop t.maxRetryAttempt env 0 "" (t.maxRetryAttempt + 1)

/-! ### Google-format adapter (factory.go, second compilation unit) -/

open Translation in
/-- `GoogleTranslator.convertToGoogleFormat` (factory.go lines 209-279):
normalize the reported source language, fall back to the heuristic when it is
empty, then populate exactly the blocks whose field tokens were requested. -/
def convertToGoogleFormat (originalText : String) (result : TranslationResult)
    (dt : List String) : Response :=
  let detectedLang := Langutil.NormalizeLanguageCode result.SourceLang
  let detectedLang :=
    if detectedLang == "" then Langutil.DetectLanguage originalText "" else detectedLang
  let resp : Response :=
    { Src := detectedLang
      LDResult := some { Srclangs := [detectedLang], SrclangsConfidences := [(0.99 : Rat)] } }
  let resp :=
    if Langutil.Includes dt "t" then
      { resp with Sentences := resp.Sentences ++
          [{ Orig := originalText, Trans := result.TranslatedText, Backend := 1 }] }
    else resp
  let resp :=
    if Langutil.Includes dt "rm" then
      { resp with Sentences := resp.Sentences ++
          [{ SrcTranslit := originalText, Translit := goToUpper originalText }] }
    else resp
  let resp :=
    if Langutil.Includes dt "bd" then
      { resp with Dict :=
          [{ Pos := "translation"
             Entry := [{ Word := result.TranslatedText
                         ReverseTranslation := [originalText]
                         Score := (0.95 : Rat) }] }] }
    else resp
  let resp :=
    if Langutil.Includes dt "qca" then
      { resp with Spell := some { SpellRes := originalText } }
    else resp
  let resp :=
    if Langutil.Includes dt "ex" then
      { resp with Examples := some { Examples := [] } }
    else resp
  resp

open Translation in
/-- `GoogleTranslator.buildErrorResponse` (factory.go lines 282-301): degraded
response echoing the original text, built whenever the upstream result failed.
It ignores the requested field set. -/
def buildErrorResponse (q sl _tl : String) : Response :=
  let detectedLang := sl
  let detectedLang :=
    if detectedLang == "" || goEqualFold detectedLang "auto" then
      Langutil.DetectLanguage q sl
    else detectedLang
  { Src := detectedLang
    Sentences := [{ Orig := q, Trans := q }]
    LDResult := some { Srclangs := [detectedLang], SrclangsConfidences := [(0.5 : Rat)] } }

open Translation in
/-- `GoogleTranslator.doTranslate` (factory.go lines 178-192), with the
upstream call already resolved to `result` (the `translateFunc` invocation):
failure yields the degraded response with a nil error, success yields the
converted response with a nil error. The Go pair `(*Response, error)` is a
pair of options. -/
def doTranslateWithResult (q sl tl : String) (dt : List String)
    (result : Option TranslationResult) : Option Response × Option String :=
  match result with
  | none => (none, none)  -- unreachable: doRequest never returns nil (doRequest_isSome)
  | some result =>
    if !result.Success then (some (buildErrorResponse q sl tl), none)
    else (some (convertToGoogleFormat q result dt), none)

open Translation in
/-- `GoogleTranslator.TranslateWithModel` = `doTranslate` over the retrying
client (`TranslateWithModelContext` → `doRequest`). The request fields shape
only the serialized body and URL; the branch taken is a function of the
attempt outcomes in `env`. -/
def googleTranslateWithModel (t : DeepLXTranslator) (env : HttpEnv)
    (q sl tl : String) (dt : List String) (_model : String) :
    Option Response × Option String :=
  doTranslateWithResult q sl tl dt (doRequest t env).1

end Deeplx

/-! ## `internal/cache`: key generation (key.go) and decorator (service.go) -/

namespace CacheSvc

/-- Concatenate a list of byte lists. -/
def flatBytes : List (List Nat) → List Nat
  | [] => []
  | l :: ls => l ++ flatBytes ls

/-- UTF-8 encoding of one rune (Go strings are UTF-8 byte sequences; hashing
consumes the bytes of the normalized string). -/
def utf8Char (c : Char) : List Nat :=
  let n := c.toNat
  if n < 0x80 then [n]
  else if n < 0x800 then [0xC0 + n / 64, 0x80 + n % 64]
  else if n < 0x10000 then [0xE0 + n / 4096, 0x80 + (n / 64) % 64, 0x80 + n % 64]
  else [0xF0 + n / 262144, 0x80 + (n / 4096) % 64, 0x80 + (n / 64) % 64, 0x80 + n % 64]

/-- UTF-8 bytes of a Go string. -/
def utf8Bytes (s : String) : List Nat := flatBytes (s.data.map utf8Char)

/-! ### SHA-256 (Go `crypto/sha256.Sum256`, FIPS 180-4) -/

/-- 32-bit right rotation. -/
def rotr32 (n x : Nat) : Nat := ((x >>> n) ||| (x <<< (32 - n))) % 2 ^ 32

/-- SHA-256 `Ch`. -/
def ch32 (x y z : Nat) : Nat := (x &&& y) ^^^ ((x ^^^ (2 ^ 32 - 1)) &&& z)

/-- SHA-256 `Maj`. -/
def maj32 (x y z : Nat) : Nat := (x &&& y) ^^^ (x &&& z) ^^^ (y &&& z)

/-- SHA-256 Σ0. -/
def bSig0 (x : Nat) : Nat := rotr32 2 x ^^^ rotr32 13 x ^^^ rotr32 22 x

/-- SHA-256 Σ1. -/
def bSig1 (x : Nat) : Nat := rotr32 6 x ^^^ rotr32 11 x ^^^ rotr32 25 x

/-- SHA-256 σ0. -/
def sSig0 (x : Nat) : Nat := rotr32 7 x ^^^ rotr32 18 x ^^^ (x >>> 3)

/-- SHA-256 σ1. -/
def sSig1 (x : Nat) : Nat := rotr32 17 x ^^^ rotr32 19 x ^^^ (x >>> 10)

/-- The 64 SHA-256 round constants of FIPS 180-4 (the fractional parts of the
cube roots of the first 64 primes), written as decimal 32-bit values. -/
def sha256K : List Nat :=
  [1116352408, 1899447441, 3049323471, 3921009573,
   961987163, 1508970993, 2453635748, 2870763221,
   3624381080, 310598401, 607225278, 1426881987,
   1925078388, 2162078206, 2614888103, 3248222580,
   3835390401, 4022224774, 264347078, 604807628,
   770255983, 1249150122, 1555081692, 1996064986,
   2554220882, 2821834349, 2952996808, 3210313671,
   3336571891, 3584528711, 113926993, 338241895,
   666307205, 773529912, 1294757372, 1396182291,
   1695183700, 1986661051, 2177026350, 2456956037,
   2730485921, 2820302411, 3259730800, 3345764771,
   3516065817, 3600352804, 4094571909, 275423344,
   430227734, 506948616, 659060556, 883997877,
   958139571, 1322822218, 1537002063, 1747873779,
   1955562222, 2024104815, 2227730452, 2361852424,
   2428436474, 2756734187, 3204031479, 3329325298]

/-- The eight 32-bit working variables of the SHA-256 state. -/
structure Hash8 where
  a : Nat
  b : Nat
  c : Nat
  d : Nat
  e : Nat
  f : Nat
  g : Nat
  h : Nat
  deriving Repr, DecidableEq

/-- The SHA-256 initial hash value of FIPS 180-4, in decimal. -/
def sha256H0 : Hash8 :=
  { a := 1779033703, b := 3144134277, c := 1013904242, d := 2773480762,
    e := 1359893119, f := 2600822924, g := 528734635, h := 1541459225 }

/-- Big-endian packing of bytes into 32-bit words. -/
def bytesToWords : List Nat → List Nat
  | b0 :: b1 :: b2 :: b3 :: rest =>
    (((b0 * 256 + b1) * 256 + b2) * 256 + b3) :: bytesToWords rest
  | _ => []

/-- Extend the 16 message-schedule words by `k` more words. -/
def extendSchedule : List Nat → Nat → List Nat
  | ws, 0 => ws
  | ws, k + 1 =>
    let i := ws.length
    let w := (sSig1 (ws.getD (i - 2) 0) + ws.getD (i - 7) 0 +
              sSig0 (ws.getD (i - 15) 0) + ws.getD (i - 16) 0) % 2 ^ 32
    extendSchedule (ws ++ [w]) k

/-- One SHA-256 compression round. -/
def sha256Round (w k : Nat) (s : Hash8) : Hash8 :=
  let t1 := (s.h + bSig1 s.e + ch32 s.e s.f s.g + k + w) % 2 ^ 32
  let t2 := (bSig0 s.a + maj32 s.a s.b s.c) % 2 ^ 32
  { a := (t1 + t2) % 2 ^ 32, b := s.a, c := s.b, d := s.c,
    e := (s.d + t1) % 2 ^ 32, f := s.e, g := s.f, h := s.g }

/-- Run the 64 rounds, consuming schedule words and round constants. -/
def sha256Rounds : List Nat → List Nat → Hash8 → Hash8
  | w :: ws, k :: ks, s => sha256Rounds ws ks (sha256Round w k s)
  | _, _, s => s

/-- Compress one 64-byte block into the running hash. -/
def sha256Compress (s : Hash8) (block : List Nat) : Hash8 :=
  let ws := extendSchedule (bytesToWords block) 48
  let t := sha256Rounds ws sha256K s
  { a := (s.a + t.a) % 2 ^ 32, b := (s.b + t.b) % 2 ^ 32,
    c := (s.c + t.c) % 2 ^ 32, d := (s.d + t.d) % 2 ^ 32,
    e := (s.e + t.e) % 2 ^ 32, f := (s.f + t.f) % 2 ^ 32,
    g := (s.g + t.g) % 2 ^ 32, h := (s.h + t.h) % 2 ^ 32 }

/-- Split a byte list into 64-byte chunks. -/
def chunksOf64 : List Nat → List (List Nat)
  | [] => []
  | x :: xs => (x :: xs).take 64 :: chunksOf64 ((x :: xs).drop 64)
termination_by l => l.length
decreasing_by simp; omega

/-- The 8-byte big-endian encoding of the message bit length. -/
def lenBytes64 (n : Nat) : List Nat :=
  [(n >>> 56) % 256, (n >>> 48) % 256, (n >>> 40) % 256, (n >>> 32) % 256,
   (n >>> 24) % 256, (n >>> 16) % 256, (n >>> 8) % 256, n % 256]

/-- SHA-256 padding: append `0x80`, zero bytes to 56 mod 64, then the
bit length. -/
def sha256Pad (msg : List Nat) : List Nat :=
  let len := msg.length
  msg ++ [0x80] ++ List.replicate ((119 - len % 64) % 64) 0 ++ lenBytes64 (len * 8)

/-- Big-endian bytes of one 32-bit word. -/
def wordBytes (w : Nat) : List Nat :=
  [(w >>> 24) % 256, (w >>> 16) % 256, (w >>> 8) % 256, w % 256]

/-- `sha256.Sum256`: the 32-byte SHA-256 digest of a byte sequence. -/
def sha256Bytes (msg : List Nat) : List Nat :=
  let s := (chunksOf64 (sha256Pad msg)).foldl sha256Compress sha256H0
  wordBytes s.a ++ wordBytes s.b ++ wordBytes s.c ++ wordBytes s.d ++
  wordBytes s.e ++ wordBytes s.f ++ wordBytes s.g ++ wordBytes s.h

/-- `hex.EncodeToString`: one lowercase hex digit. -/
def hexDigit (n : Nat) : Char :=
  if n < 10 then Char.ofNat (48 + n) else Char.ofNat (87 + n)

/-- Hex encoding of one byte. -/
def hexByte (b : Nat) : List Char := [hexDigit (b / 16), hexDigit (b % 16)]

/-- Concatenate character lists. -/
def flatChars : List (List Char) → List Char
  | [] => []
  | l :: ls => l ++ flatChars ls

/-- `hex.EncodeToString` over a byte list. -/
def hexEncode (bs : List Nat) : String := String.mk (flatChars (bs.map hexByte))

/-! ### `cache.KeyGenerator` (key.go) -/

/-- `cache.KeyPrefix` ("translate"). -/
def keyNamespace : String := "translate"

/-- `cache.SharedServiceName` ("shared"). -/
def sharedServiceName : String := "shared"

/-- The normalized `"%s|%s|%s|%s"` string hashed by
`KeyGenerator.computeHash` (key.go lines 50-57). -/
def normalizedInput (text sourceLang targetLang model : String) : String :=
  goTrimSpace text ++ "|" ++ goToLower (goTrimSpace sourceLang) ++ "|" ++
  goToLower (goTrimSpace targetLang) ++ "|" ++ goToLower (goTrimSpace model)

/-- `KeyGenerator.computeHash` (key.go): SHA-256 of the normalized input,
truncated to the first 8 bytes, hex encoded (16 hex characters). -/
def computeHash (text sourceLang targetLang model : String) : String :=
  hexEncode ((sha256Bytes (utf8Bytes (normalizedInput text sourceLang targetLang model))).take 8)

/-- `KeyGenerator.Generate` (key.go lines 39-46): `translate:{scope}:{hash}`
where the scope is `shared` in shared mode and the lower-cased service name
otherwise. -/
def Generate (shareAcrossServices : Bool)
    (service text sourceLang targetLang model : String) : String :=
  let hash := computeHash text sourceLang targetLang model
  if shareAcrossServices then
    keyNamespace ++ ":" ++ sharedServiceName ++ ":" ++ hash
  else
    keyNamespace ++ ":" ++ goToLower service ++ ":" ++ hash

/-! ### `cache.CachedTranslation` (cache.go) and the decorator (service.go) -/

/-- `cache.CacheFormatVersion` (cache.go): current format version. -/
def CacheFormatVersion : Int := 1

/-- `cache.CachedTranslation` (cache.go): the persisted entry shape. -/
structure CachedTranslation where
  OriginalText : String := ""
  SourceLang : String := ""
  TargetLang : String := ""
  TranslatedText : String := ""
  Alternatives : List String := []
  Service : String := ""
  Model : String := ""
  CachedAt : Int := 0
  Version : Int := 0
  deriving Repr, DecidableEq

/-- The alternative texts extracted by `buildCachedTranslation`
(service.go lines 246-259): every inner `WordPostproc` that is non-empty and
differs from the primary translated text, in iteration order. -/
def altTexts (alts : List Translation.AlternativeTranslation) (primary : String) :
    List String :=
  flatStringLists (alts.map (fun alt =>
    (alt.Alternative.filter (fun a =>
      a.WordPostproc != "" && a.WordPostproc != primary)).map
        (fun a => a.WordPostproc)))
where
  /-- Concatenate string lists (the nested `for` loops append in order). -/
  flatStringLists : List (List String) → List String
    | [] => []
    | l :: ls => l ++ flatStringLists ls

/-- `CachedTranslationService.buildCachedTranslation` (service.go lines
218-262). `serviceName` is `c.service.GetName()` and `nowMillis` is
`time.Now().UnixMilli()`. -/
def buildCachedTranslation (serviceName : String) (nowMillis : Int)
    (originalText sourceLang targetLang model : String)
    (resp : Translation.Response) : CachedTranslation :=
  let cached : CachedTranslation :=
    { OriginalText := originalText
      SourceLang := resp.Src
      TargetLang := targetLang
      Service := serviceName
      Model := model
      CachedAt := nowMillis
      Version := CacheFormatVersion }
  let cached :=
    if cached.SourceLang == "" then { cached with SourceLang := sourceLang } else cached
  let cached :=
    if 0 < resp.Sentences.length then
      { cached with TranslatedText :=
          resp.Sentences.foldl (fun acc s => acc ++ s.Trans) "" }
    else cached
  let alternatives := altTexts resp.AlternativeTranslations cached.TranslatedText
  let cached :=
    if 0 < alternatives.length then { cached with Alternatives := alternatives }
    else cached
  cached

/-- `CachedTranslationService.buildResponseFromCache` (service.go lines
265-293): a single sentence pair, plus the alternatives block when the entry
stores alternatives. No other block is reconstructed. -/
def buildResponseFromCache (cached : CachedTranslation) : Translation.Response :=
  let resp : Translation.Response :=
    { Src := cached.SourceLang
      Sentences := [{ Orig := cached.OriginalText, Trans := cached.TranslatedText }] }
  if 0 < cached.Alternatives.length then
    { resp with AlternativeTranslations :=
        [{ SrcPhrase := cached.OriginalText
           Alternative := cached.Alternatives.map (fun alt => { WordPostproc := alt }) }] }
  else resp

/-- What one synchronous cache read can produce, as observed by
`getFromCache`: `cache.Get` errors, reports absence (`nil, nil`), yields bytes
that fail `json.Unmarshal`, or yields bytes that decode to an entry. -/
inductive CacheReadResult where
  | getError (msg : String)
  | absent
  | corrupt (msg : String)
  | entry (e : CachedTranslation)
  deriving Repr, DecidableEq

/-- `CachedTranslationService.getFromCache` (service.go lines 146-172):
read errors and unmarshal failures propagate as `(nil, err)`; absence is
`(nil, nil)`; a decoded entry whose version differs from
`CacheFormatVersion` is discarded as `(nil, nil)`. -/
def getFromCache : CacheReadResult → Option CachedTranslation × Option String
  | .getError msg => (none, some msg)
  | .absent => (none, none)
  | .corrupt msg => (none, some msg)
  | .entry e =>
    if e.Version ≠ CacheFormatVersion then (none, none) else (some e, none)

/-- Constructor-time state of `CachedTranslationService` that steers control
flow: `enabled` is `cfg.Enabled` and `hasCache` is `c.cache != nil`. -/
structure CachedConfig where
  enabled : Bool
  hasCache : Bool
  shareAcrossServices : Bool
  deriving Repr, DecidableEq

/-- The effect oracle for one decorator call: the synchronous cache read, the
inner service call (`c.service.TranslateWithModel`), and the wall clock. -/
structure DecoratorEnv where
  read : CacheReadResult
  inner : Option Translation.Response × Option String
  nowMillis : Int

/-- Observable outcome of one `CachedTranslationService.TranslateWithModel`
call: the returned pair, the cache key that was generated (none on the
pass-through path), whether the inner service was invoked, whether an
asynchronous cache write was scheduled, and the entry such a write stores. -/
structure DecoratorOutcome where
  resp : Option Translation.Response
  err : Option String
  key : Option String
  innerCalled : Bool
  writeScheduled : Bool
  written : Option CachedTranslation
  deriving Repr, DecidableEq

/-- `CachedTranslationService.TranslateWithModel` (service.go lines 94-133).
Disabled caching or a nil cache delegates directly. Otherwise: generate the
key, read through the cache — a hit (`err == nil && cached != nil`) rebuilds
the response from the entry; a miss calls the inner service, propagates its
error without writing, and on success schedules the asynchronous write of the
entry built from the response before returning `(resp, nil)`. -/
def TranslateWithModel (cfg : CachedConfig) (serviceName : String)
    (env : DecoratorEnv) (q sl tl : String) (_dt : List String)
    (model : String) : DecoratorOutcome :=
  if !cfg.enabled || !cfg.hasCache then
    { resp := env.inner.1, err := env.inner.2, key := none,
      innerCalled := true, writeScheduled := false, written := none }
  else
    let key := Generate cfg.shareAcrossServices serviceName q sl tl model
    match getFromCache env.read with
    | (some cached, none) =>
      { resp := some (buildResponseFromCache cached), err := none,
        key := some key, innerCalled := false, writeScheduled := false,
        written := none }
    | (_, _) =>
      match env.inner with
      | (_, some e) =>
        { resp := none, err := some e, key := some key, innerCalled := true,
          writeScheduled := false, written := none }
      | (resp, none) =>
        { resp := resp, err := none, key := some key, innerCalled := true,
          writeScheduled := true,
          written := resp.map
            (buildCachedTranslation serviceName env.nowMillis q sl tl model) }

end CacheSvc

/-! ## Concrete sample inputs used by witnesses and counterexamples -/

namespace Deeplx

/-- The translator built by `NewTranslator "sk-test"`. -/
def sampleTranslator : DeepLXTranslator :=
  { apiKey := "sk-test"
    baseURL := "https://deeplx.jayogo.com/translate"
    requestTimeoutSec := 10
    maxRetryAttempt := 2 }

/-- An upstream that always answers HTTP 500 with body "oops". -/
def envAll500 : HttpEnv :=
  { ctxErr := fun _ => none
    outcome := fun _ => .httpResp 500 "oops" (.error "not json") }

/-- An upstream that always answers HTTP 200 with a body that fails
deserialization. -/
def envAllMalformed : HttpEnv :=
  { ctxErr := fun _ => none
    outcome := fun _ => .httpResp 200 "<html>" (.error "invalid character") }

/-- An upstream whose first two attempts fail with a transient network
timeout and whose third attempt succeeds. -/
def envFlakyTwice : HttpEnv :=
  { ctxErr := fun _ => none
    outcome := fun n =>
      if n < 2 then .doError true false "connection reset"
      else .httpResp 200 "{}" (.ok { Data := "Bonjour", SourceLang := "EN", TargetLang := "FR" }) }

/-- An upstream that always rejects with HTTP 400 (non-retryable). -/
def envAll400 : HttpEnv :=
  { ctxErr := fun _ => none
    outcome := fun _ => .httpResp 400 "bad request" (.error "not json") }

/-- An upstream that always succeeds, reporting source "EN". -/
def envOkEn : HttpEnv :=
  { ctxErr := fun _ => none
    outcome := fun _ =>
      .httpResp 200 "{}" (.ok { Data := "Bonjour", SourceLang := "EN", TargetLang := "FR" }) }

end Deeplx

namespace CacheSvc

/-- A version-1 (current-format) cached entry. -/
def sampleEntryV1 : CachedTranslation :=
  { OriginalText := "hi"
    SourceLang := "en"
    TargetLang := "fr"
    TranslatedText := "salut"
    Service := "DeepLX"
    Model := ""
    CachedAt := 0
    Version := 1 }

/-- The same entry persisted under the previous format version. -/
def sampleEntryV0 : CachedTranslation := { sampleEntryV1 with Version := 0 }

/-- A decorator with caching enabled and a cache configured. -/
def cfgEnabled : CachedConfig :=
  { enabled := true, hasCache := true, shareAcrossServices := false }

/-- A decorator environment: cache miss, inner service = the adapter over the
always-500 upstream. -/
def denvMiss500 : DecoratorEnv :=
  { read := .absent
    inner := Deeplx.googleTranslateWithModel Deeplx.sampleTranslator
      Deeplx.envAll500 "hi" "" "fr" ["t"] ""
    nowMillis := 0 }

/-- A decorator environment that hits on the current-format entry. -/
def denvHitV1 : DecoratorEnv :=
  { read := .entry sampleEntryV1
    inner := (none, some "inner not called")
    nowMillis := 0 }

/-- The family of texts "a", "aa", "aaa", ... -/
def textN (n : Nat) : String := String.mk (List.replicate (n + 1) 'a')

/-- The truncated (8-byte) digest used in the key for text `t` at the fixed
normalized inputs (source "auto", target "en", no model). -/
def digest8 (t : String) : List Nat :=
  (sha256Bytes (utf8Bytes (normalizedInput t "auto" "en" ""))).take 8

/-- The truncated digest packed into a finite type (8 bytes, each < 256). -/
def packFn (t : String) : Fin 8 → Fin 256 :=
  fun i => ⟨(digest8 t).getD i 0 % 256, by omega⟩

end CacheSvc

/-! ## Helper lemmas about the retry loop -/

namespace Deeplx

/-- Every return site of `doRequest` yields a (non-nil) result. -/
theorem doRequestLoop_fst_isSome (maxR : Nat) (env : HttpEnv) :
    ∀ fuel attempt lastErr,
      ((doRequestLoop maxR env attempt lastErr fuel).1).isSome = true := by
  intro fuel
  induction fuel with
  | zero => intro attempt lastErr; simp [doRequestLoop]
  | succ n ih =>
    intro attempt lastErr
    simp only [doRequestLoop]
    cases decideStep maxR attempt (env.ctxErr attempt) (env.outcome attempt) with
    | stop result didCall => simp
    | retry lastErr2 => simpa using ih (attempt + 1) lastErr2

/-- The loop performs at most `fuel` upstream calls. -/
theorem doRequestLoop_calls_le (maxR : Nat) (env : HttpEnv) :
    ∀ fuel attempt lastErr,
      (doRequestLoop maxR env attempt lastErr fuel).2.calls ≤ fuel := by
  intro fuel
  induction fuel with
  | zero => intro attempt lastErr; simp [doRequestLoop]
  | succ n ih =>
    intro attempt lastErr
    simp only [doRequestLoop]
    cases decideStep maxR attempt (env.ctxErr attempt) (env.outcome attempt) with
    | stop result didCall => cases didCall <;> simp
    | retry lastErr2 =>
      have := ih (attempt + 1) lastErr2
      simpa using Nat.add_le_add_right this 1

/-- The back-off durations slept by the loop entered at `attempt` follow the
linear schedule: the i-th sleep is `backoff (attempt + i)`. -/
theorem doRequestLoop_sleeps_getD (maxR : Nat) (env : HttpEnv) :
    ∀ fuel attempt lastErr i,
      i < ((doRequestLoop maxR env attempt lastErr fuel).2.sleeps).length →
      ((doRequestLoop maxR env attempt lastErr fuel).2.sleeps).getD i 0 =
        backoff (attempt + i) := by
  intro fuel
  induction fuel with
  | zero => intro attempt lastErr i h; simp [doRequestLoop] at h
  | succ n ih =>
    intro attempt lastErr i h
    simp only [doRequestLoop] at h ⊢
    cases hs : decideStep maxR attempt (env.ctxErr attempt) (env.outcome attempt) with
    | stop result didCall => simp [hs] at h
    | retry lastErr2 =>
      simp only [hs] at h ⊢
      cases i with
      | zero => simp
      | succ j =>
        have hj : j < ((doRequestLoop maxR env (attempt + 1) lastErr2 n).2.sleeps).length := by
          simpa using h
        have hrec := ih (attempt + 1) lastErr2 j hj
        have harith : attempt + 1 + j = attempt + (j + 1) := by omega
        simpa [harith] using hrec

/-- When every iteration below the retry bound decides `retry m` and the
iteration at the bound decides to stop with message `m`, the loop consumes all
its fuel and returns the failure carrying `m`. -/
theorem doRequestLoop_uniform_fail (maxR : Nat) (env : HttpEnv) (m : String)
    (hstep : ∀ a, a < maxR →
      decideStep maxR a (env.ctxErr a) (env.outcome a) = .retry m)
    (hstop : ∀ a, ¬ a < maxR →
      decideStep maxR a (env.ctxErr a) (env.outcome a) =
        .stop { Success := false, ErrorMessage := m } true) :
    ∀ fuel attempt lastErr, 1 ≤ fuel → attempt + fuel = maxR + 1 →
      (doRequestLoop maxR env attempt lastErr fuel).1 =
        some { Success := false, ErrorMessage := m } ∧
      (doRequestLoop maxR env attempt lastErr fuel).2.calls = fuel := by
  intro fuel
  induction fuel with
  | zero => intro attempt lastErr h1 h2; omega
  | succ n ih =>
    intro attempt lastErr h1 h2
    simp only [doRequestLoop]
    by_cases ha : attempt < maxR
    · have hr := hstep attempt ha
      have hn : 1 ≤ n := by omega
      obtain ⟨ihr, ihc⟩ := ih (attempt + 1) m hn (by omega)
      rw [hr]
      simpa using ⟨ihr, ihc⟩
    · have hr := hstop attempt ha
      have hn : n = 0 := by omega
      rw [hr]
      simp [hn]

/-- C4: for every translator configuration and every environment (context
cancellations and attempt outcomes), `doRequest` returns a non-nil
`TranslationResult` and performs at most `maxRetryAttempt + 1` upstream
attempts; and `NewTranslator` configures `maxRetryAttempt = 2` by default.
Termination on every path is witnessed by `doRequest` being a total
function whose recursion depth is the loop bound itself. -/
theorem C4_doRequest_bounded_total :
    (∀ (t : DeepLXTranslator) (env : HttpEnv),
        ((doRequest t env).1).isSome = true ∧
        (doRequest t env).2.calls ≤ t.maxRetryAttempt + 1) ∧
    ∀ apiKey cfg, NewTranslator apiKey = some cfg → cfg.maxRetryAttempt = 2 := by
  constructor
  · intro t env
    exact ⟨doRequestLoop_fst_isSome _ _ _ 0 "", doRequestLoop_calls_le _ _ _ 0 ""⟩
  · intro apiKey cfg h
    unfold NewTranslator at h
    split at h
    · simp at h
    · cases h
      rfl

/-- Witness for C4: the hypothesis `NewTranslator apiKey = some cfg` holds at
`"sk-test"`, and the bound and non-nil conclusions evaluate on the concrete
always-500 environment (3 calls ≤ 3). -/
theorem C4_witness :
    (NewTranslator "sk-test" = some sampleTranslator ∧
      sampleTranslator.maxRetryAttempt = 2) ∧
    ((doRequest sampleTranslator envAll500).1).isSome = true ∧
    (doRequest sampleTranslator envAll500).2.calls ≤ 3 :=
  ⟨⟨by decide, C4_doRequest_bounded_total.2 "sk-test" sampleTranslator (by decide)⟩,
    (C4_doRequest_bounded_total.1 sampleTranslator envAll500).1,
    (C4_doRequest_bounded_total.1 sampleTranslator envAll500).2⟩

/-- C5: every back-off slept by the retrying client is linear in the number
of attempts already made: the i-th sleep (0-based, slept after attempt i,
i.e. after `i + 1` attempts) lasts `(i + 1) * 200` ms — not exponential. -/
theorem C5_backoff_linear (t : DeepLXTranslator) (env : HttpEnv) (i : Nat)
    (h : i < ((doRequest t env).2.sleeps).length) :
    ((doRequest t env).2.sleeps).getD i 0 = 200 * (i + 1) := by
  have hrec := doRequestLoop_sleeps_getD t.maxRetryAttempt env
    (t.maxRetryAttempt + 1) 0 "" i (by simpa [doRequest] using h)
  simpa [doRequest, backoff] using hrec

/-- Witness for C5: on the flaky environment the client sleeps twice; the
second sleep (index 1, after two attempts) lasts 400 ms = 2 × 200 ms. -/
theorem C5_witness :
    1 < ((doRequest sampleTranslator envFlakyTwice).2.sleeps).length ∧
    ((doRequest sampleTranslator envFlakyTwice).2.sleeps).getD 1 0 = 200 * 2 :=
  ⟨by decide, C5_backoff_linear sampleTranslator envFlakyTwice 1 (by decide)⟩

/-- C3 is false as stated: with the default retry budget (2) and every
attempt answering HTTP 200 with a malformed body, the client does NOT fail
on the first attempt — it performs 3 attempts, sleeping twice, before
returning the unsuccessful result. -/
theorem C3_counterexample :
    (doRequest sampleTranslator envAllMalformed).2.calls = 3 ∧
    (doRequest sampleTranslator envAllMalformed).2.sleeps = [200, 400] ∧
    (doRequest sampleTranslator envAllMalformed).1 =
      some { Success := false, ErrorMessage := "解析响应失败: invalid character" } := by
  decide

/-- C3 (amended): an attempt with HTTP status 200 whose body fails JSON
deserialization is retried like a transient failure; only after the retry
budget is exhausted (`maxRetryAttempt + 1` attempts in total) does the client
return an unsuccessful `TranslationResult` carrying the parse error. -/
theorem C3_malformed_retried (t : DeepLXTranslator) (env : HttpEnv)
    (body emsg : String)
    (hout : ∀ n, env.outcome n = .httpResp 200 body (.error emsg))
    (hctx : ∀ n, env.ctxErr n = none) :
    (doRequest t env).1 =
      some { Success := false, ErrorMessage := "解析响应失败: " ++ emsg } ∧
    (doRequest t env).2.calls = t.maxRetryAttempt + 1 := by
  have hstep : ∀ a, a < t.maxRetryAttempt →
      decideStep t.maxRetryAttempt a (env.ctxErr a) (env.outcome a) =
        .retry ("解析响应失败: " ++ emsg) := by
    intro a ha
    rw [hctx a, hout a]
    simp [decideStep, ha]
  have hstop : ∀ a, ¬ a < t.maxRetryAttempt →
      decideStep t.maxRetryAttempt a (env.ctxErr a) (env.outcome a) =
        .stop { Success := false, ErrorMessage := "解析响应失败: " ++ emsg } true := by
    intro a ha
    rw [hctx a, hout a]
    simp [decideStep, ha]
  exact doRequestLoop_uniform_fail t.maxRetryAttempt env _ hstep hstop
    (t.maxRetryAttempt + 1) 0 "" (by omega) (by omega)

/-- Witness for C3 (amended) at the concrete always-malformed upstream. -/
theorem C3_witness :
    ((∀ n, envAllMalformed.outcome n =
        .httpResp 200 "<html>" (.error "invalid character")) ∧
      (∀ n, envAllMalformed.ctxErr n = none)) ∧
    (doRequest sampleTranslator envAllMalformed).1 =
      some { Success := false, ErrorMessage := "解析响应失败: " ++ "invalid character" } ∧
    (doRequest sampleTranslator envAllMalformed).2.calls =
      sampleTranslator.maxRetryAttempt + 1 :=
  ⟨⟨fun _ => rfl, fun _ => rfl⟩,
    C3_malformed_retried sampleTranslator envAllMalformed "<html>" "invalid character"
      (fun _ => rfl) (fun _ => rfl)⟩

/-- The error message formatted for an HTTP 500 response. -/
theorem http500_msg (body : String) :
    "HTTP " ++ toString (500 : Nat) ++ ": " ++ body = "HTTP 500: " ++ body := rfl

end Deeplx

/-! ## Claims about the cache-aside decorator -/

namespace CacheSvc

open Deeplx

/-- C2 is false as stated: against the always-500 upstream, the adapter
swallows the exhausted-retries failure into a degraded echo response with a
NIL error, and the decorator — seeing a nil error — DOES schedule a cache
write for that request. -/
theorem C2_counterexample :
    (TranslateWithModel cfgEnabled "DeepLX" denvMiss500 "hi" "" "fr" ["t"] "").err
      = none ∧
    (TranslateWithModel cfgEnabled "DeepLX" denvMiss500 "hi" "" "fr" ["t"] "").writeScheduled
      = true ∧
    (doRequest sampleTranslator envAll500).1 =
      some { Success := false, ErrorMessage := "HTTP 500: oops" } := by
  refine ⟨?_, ?_, ?_⟩ <;> decide

/-- C2 (amended): against an upstream that always answers HTTP 500, the
retrying client — after exhausting its budget — returns an unsuccessful
result carrying the last `HTTP 500` error; the adapter converts that failure
into a degraded echo response with a nil error, and the decorator, seeing the
nil error, schedules a cache write for that degraded response (so the caller
gets no hard error, and a cache write does occur). -/
theorem C2_always500_degraded_and_cached
    (t : DeepLXTranslator) (env : HttpEnv) (body : String)
    (p : Except String TranslationResponse)
    (hout : ∀ n, env.outcome n = .httpResp 500 body p)
    (hctx : ∀ n, env.ctxErr n = none)
    (cfg : CachedConfig) (hcfg1 : cfg.enabled = true) (hcfg2 : cfg.hasCache = true)
    (svc q sl tl model : String) (dt : List String) (denv : DecoratorEnv)
    (hread : denv.read = .absent)
    (hinner : denv.inner = googleTranslateWithModel t env q sl tl dt model) :
    (doRequest t env).1 =
      some { Success := false, ErrorMessage := "HTTP 500: " ++ body } ∧
    (TranslateWithModel cfg svc denv q sl tl dt model).err = none ∧
    (TranslateWithModel cfg svc denv q sl tl dt model).resp =
      some (buildErrorResponse q sl tl) ∧
    (TranslateWithModel cfg svc denv q sl tl dt model).writeScheduled = true := by
  have hstep : ∀ a, a < t.maxRetryAttempt →
      decideStep t.maxRetryAttempt a (env.ctxErr a) (env.outcome a) =
        .retry ("HTTP 500: " ++ body) := by
    intro a ha
    rw [hctx a, hout a]
    simp [decideStep, shouldRetryStatus, ha, http500_msg]
  have hstop : ∀ a, ¬ a < t.maxRetryAttempt →
      decideStep t.maxRetryAttempt a (env.ctxErr a) (env.outcome a) =
        .stop { Success := false, ErrorMessage := "HTTP 500: " ++ body } true := by
    intro a ha
    rw [hctx a, hout a]
    simp [decideStep, shouldRetryStatus, ha, http500_msg]
  have hfail := doRequestLoop_uniform_fail t.maxRetryAttempt env _ hstep hstop
    (t.maxRetryAttempt + 1) 0 "" (by omega) (by omega)
  have hfail1 : (doRequest t env).1 =
      some { Success := false, ErrorMessage := "HTTP 500: " ++ body } := hfail.1
  have hgoogle : googleTranslateWithModel t env q sl tl dt model =
      (some (buildErrorResponse q sl tl), none) := by
    unfold googleTranslateWithModel doTranslateWithResult
    rw [hfail1]
    simp
  refine ⟨hfail1, ?_, ?_, ?_⟩ <;>
    simp [TranslateWithModel, hcfg1, hcfg2, hread, hinner, hgoogle, getFromCache]

/-- Witness for C2 (amended) at the concrete always-500 pipeline. -/
theorem C2_witness :
    (denvMiss500.read = CacheReadResult.absent ∧ cfgEnabled.enabled = true ∧
      cfgEnabled.hasCache = true ∧
      (∀ n, envAll500.outcome n = .httpResp 500 "oops" (.error "not json"))) ∧
    (doRequest sampleTranslator envAll500).1 =
      some { Success := false, ErrorMessage := "HTTP 500: " ++ "oops" } ∧
    (TranslateWithModel cfgEnabled "DeepLX" denvMiss500 "hi" "" "fr" ["t"] "").err
      = none ∧
    (TranslateWithModel cfgEnabled "DeepLX" denvMiss500 "hi" "" "fr" ["t"] "").resp
      = some (buildErrorResponse "hi" "" "fr") ∧
    (TranslateWithModel cfgEnabled "DeepLX" denvMiss500 "hi" "" "fr" ["t"] "").writeScheduled
      = true :=
  ⟨⟨rfl, rfl, rfl, fun _ => rfl⟩,
    C2_always500_degraded_and_cached sampleTranslator envAll500 "oops"
      (.error "not json") (fun _ => rfl) (fun _ => rfl) cfgEnabled rfl rfl
      "DeepLX" "hi" "" "fr" "" ["t"] denvMiss500 rfl rfl⟩

/-- The successful-conversion path always carries a language-detection
block. -/
theorem convertToGoogleFormat_LD_isSome (q : String) (res : TranslationResult)
    (dt : List String) :
    ((convertToGoogleFormat q res dt).LDResult).isSome = true := by
  simp only [convertToGoogleFormat]
  repeat' split
  all_goals rfl

/-- The degraded error path always carries a language-detection block. -/
theorem buildErrorResponse_LD_isSome (q sl tl : String) :
    ((buildErrorResponse q sl tl).LDResult).isSome = true := rfl

/-- The response rebuilt from a cached entry never carries a
language-detection block. -/
theorem buildResponseFromCache_LD_none (e : CachedTranslation) :
    (buildResponseFromCache e).LDResult = none := by
  simp only [buildResponseFromCache]
  split <;> rfl

/-- C1 is false as stated: on the decorator's cache-hit path (non-empty text
"hi", non-empty target "fr"), the call returns a response whose
language-detection block is nil together with a nil error. -/
theorem C1_counterexample :
    ("hi" : String) ≠ "" ∧ ("fr" : String) ≠ "" ∧
    (TranslateWithModel cfgEnabled "DeepLX" denvHitV1 "hi" "en" "fr" ["t"] "").err
      = none ∧
    (TranslateWithModel cfgEnabled "DeepLX" denvHitV1 "hi" "en" "fr" ["t"] "").resp
      = some (buildResponseFromCache sampleEntryV1) ∧
    (buildResponseFromCache sampleEntryV1).LDResult = none := by
  refine ⟨by decide, by decide, by decide, by decide, by decide⟩

/-- C1 (amended): on the live adapter paths (`GoogleTranslator.Translate` /
`TranslateWithModel`), every returned response — successful conversion or
degraded echo — carries a non-nil language-detection block and a nil error;
but on the decorator's cache-hit path the rebuilt response carries a NIL
language-detection block together with a nil error. -/
theorem C1_ld_block :
    (∀ (t : DeepLXTranslator) (env : HttpEnv) (q sl tl model : String)
        (dt : List String),
        ((googleTranslateWithModel t env q sl tl dt model).1).isSome = true ∧
        ∀ r, (googleTranslateWithModel t env q sl tl dt model).1 = some r →
          (r.LDResult).isSome = true) ∧
    (∀ (cfg : CachedConfig) (svc : String) (denv : DecoratorEnv)
        (q sl tl model : String) (dt : List String) (e : CachedTranslation),
        cfg.enabled = true → cfg.hasCache = true →
        denv.read = .entry e → e.Version = CacheFormatVersion →
        (TranslateWithModel cfg svc denv q sl tl dt model).err = none ∧
        (TranslateWithModel cfg svc denv q sl tl dt model).resp =
          some (buildResponseFromCache e) ∧
        (buildResponseFromCache e).LDResult = none) := by
  constructor
  · intro t env q sl tl model dt
    have hsome := doRequestLoop_fst_isSome t.maxRetryAttempt env
      (t.maxRetryAttempt + 1) 0 ""
    constructor
    · unfold googleTranslateWithModel doTranslateWithResult
      cases hdr : (doRequest t env).1 with
      | none => rw [doRequest] at hdr; rw [hdr] at hsome; simp at hsome
      | some result =>
        cases hsucc : result.Success <;> simp [hsucc]
    · intro r hr
      unfold googleTranslateWithModel doTranslateWithResult at hr
      cases hdr : (doRequest t env).1 with
      | none => rw [doRequest] at hdr; rw [hdr] at hsome; simp at hsome
      | some result =>
        rw [hdr] at hr
        cases hsucc : result.Success <;> simp [hsucc] at hr <;> rw [← hr]
        · exact buildErrorResponse_LD_isSome q sl tl
        · exact convertToGoogleFormat_LD_isSome q result dt
  · intro cfg svc denv q sl tl model dt e hcfg1 hcfg2 hread hver
    have hget : getFromCache (.entry e) = (some e, none) := by
      simp [getFromCache, hver]
    refine ⟨?_, ?_, buildResponseFromCache_LD_none e⟩ <;>
      simp [TranslateWithModel, hcfg1, hcfg2, hread, hget]

/-- Witness for C1 (amended): the live part evaluated against the always-OK
upstream, and the cache-hit part at the concrete version-1 entry. -/
theorem C1_witness :
    (cfgEnabled.enabled = true ∧ cfgEnabled.hasCache = true ∧
      denvHitV1.read = CacheReadResult.entry sampleEntryV1 ∧
      sampleEntryV1.Version = CacheFormatVersion) ∧
    ((googleTranslateWithModel sampleTranslator envOkEn "hi" "" "fr" ["t"] "").1).isSome
      = true ∧
    (TranslateWithModel cfgEnabled "DeepLX" denvHitV1 "hi" "en" "fr" ["t"] "").err
      = none ∧
    (buildResponseFromCache sampleEntryV1).LDResult = none :=
  ⟨⟨rfl, rfl, rfl, rfl⟩,
    (C1_ld_block.1 sampleTranslator envOkEn "hi" "" "fr" "" ["t"]).1,
    (C1_ld_block.2 cfgEnabled "DeepLX" denvHitV1 "hi" "en" "fr" "" ["t"]
      sampleEntryV1 rfl rfl rfl rfl).1,
    (C1_ld_block.2 cfgEnabled "DeepLX" denvHitV1 "hi" "en" "fr" "" ["t"]
      sampleEntryV1 rfl rfl rfl rfl).2.2⟩

/-- C7: a cached entry whose stored version differs from
`CacheFormatVersion` is never surfaced: the read behaves exactly as an
absence (the whole decorator call is indistinguishable from one that found
nothing), and the inner translation operation is invoked. -/
theorem C7_version_mismatch_is_absence
    (cfg : CachedConfig) (svc : String) (e : CachedTranslation)
    (inner : Option Translation.Response × Option String) (now : Int)
    (q sl tl model : String) (dt : List String)
    (hver : e.Version ≠ CacheFormatVersion) :
    getFromCache (.entry e) = (none, none) ∧
    TranslateWithModel cfg svc ⟨.entry e, inner, now⟩ q sl tl dt model =
      TranslateWithModel cfg svc ⟨.absent, inner, now⟩ q sl tl dt model ∧
    (TranslateWithModel cfg svc ⟨.entry e, inner, now⟩ q sl tl dt model).innerCalled
      = true := by
  have hget : getFromCache (.entry e) = (none, none) := by
    simp [getFromCache, hver]
  refine ⟨hget, ?_, ?_⟩
  · simp [TranslateWithModel, getFromCache, hver]
  · obtain ⟨r, er⟩ := inner
    cases er <;> simp [TranslateWithModel, getFromCache, hver] <;> split <;> rfl

/-- Witness for C7 with a concrete version-0 entry under the enabled
configuration. -/
theorem C7_witness :
    sampleEntryV0.Version ≠ CacheFormatVersion ∧
    getFromCache (.entry sampleEntryV0) = (none, none) ∧
    (TranslateWithModel cfgEnabled "DeepLX"
        ⟨.entry sampleEntryV0, (none, some "boom"), 0⟩ "hi" "en" "fr" ["t"] "") =
      (TranslateWithModel cfgEnabled "DeepLX"
        ⟨.absent, (none, some "boom"), 0⟩ "hi" "en" "fr" ["t"] "") ∧
    (TranslateWithModel cfgEnabled "DeepLX"
        ⟨.entry sampleEntryV0, (none, some "boom"), 0⟩ "hi" "en" "fr" ["t"] "").innerCalled
      = true :=
  ⟨by decide,
    C7_version_mismatch_is_absence cfgEnabled "DeepLX" sampleEntryV0
      (none, some "boom") 0 "hi" "en" "fr" "" ["t"] (by decide)⟩

/-- The stored translated text of a freshly built entry: the fold over the
response's sentences when there are any, the zero value otherwise. -/
theorem buildCachedTranslation_TranslatedText (svc : String) (now : Int)
    (o sl tl model : String) (resp : Translation.Response) :
    (buildCachedTranslation svc now o sl tl model resp).TranslatedText =
      if 0 < resp.Sentences.length then
        resp.Sentences.foldl (fun acc s => acc ++ s.Trans) ""
      else "" := by
  simp only [buildCachedTranslation]
  repeat' split
  all_goals simp_all

/-- C8: building a `CachedTranslation` from a response and rebuilding a
response from that entry yields exactly one sentence pair whose translated
text is the entry's stored translated text, which in turn is the
concatenation of the original response's sentence translations. -/
theorem C8_roundtrip (svc : String) (now : Int) (o sl tl model : String)
    (resp : Translation.Response) :
    ((buildResponseFromCache
        (buildCachedTranslation svc now o sl tl model resp)).Sentences.map
          (fun s => s.Trans)) =
      [(buildCachedTranslation svc now o sl tl model resp).TranslatedText] ∧
    (buildCachedTranslation svc now o sl tl model resp).TranslatedText =
      String.join (resp.Sentences.map fun s => s.Trans) := by
  constructor
  · simp only [buildResponseFromCache]
    split <;> simp
  · rw [buildCachedTranslation_TranslatedText]
    by_cases hlen : 0 < resp.Sentences.length
    · rw [if_pos hlen]
      have h1 : String.join (resp.Sentences.map fun s => s.Trans) =
          (resp.Sentences.map fun s => s.Trans).foldl (fun r s => r ++ s) "" := rfl
      rw [h1, List.foldl_map]
    · rw [if_neg hlen]
      have h0 : resp.Sentences = [] := by
        cases hs : resp.Sentences with
        | nil => rfl
        | cons a as => rw [hs] at hlen; simp at hlen
      simp [h0, String.join]

/-- C10 is false as stated: on the adapter's degraded error path (upstream
always answers HTTP 400) the sentence block is populated although the field
set `["bd"]` requests neither "t" nor "rm"; likewise the cache-hit rebuild
populates the sentence block for an empty field set. -/
theorem C10_counterexample :
    (googleTranslateWithModel sampleTranslator envAll400 "hi" "" "fr" ["bd"] "").1 =
      some (buildErrorResponse "hi" "" "fr") ∧
    (buildErrorResponse "hi" "" "fr").Sentences ≠ [] ∧
    Langutil.Includes ["bd"] "t" = false ∧
    Langutil.Includes ["bd"] "rm" = false ∧
    (TranslateWithModel cfgEnabled "DeepLX" denvHitV1 "hi" "en" "fr" [] "").resp =
      some (buildResponseFromCache sampleEntryV1) ∧
    (buildResponseFromCache sampleEntryV1).Sentences ≠ [] := by
  refine ⟨by rfl, by decide, by decide, by decide, by decide, by decide⟩

/-- C10 (amended): on the successful conversion path every optional sub-block
is populated exactly when its field token was requested ("t"/"rm" for the
sentence block, "bd" for the dictionary, "qca" for spell-check, "ex" for
examples), and unrequested blocks are absent; but the degraded error path and
the cache-hit rebuild always carry exactly one sentence pair regardless of
the requested field set. -/
theorem C10_field_gating :
    (∀ (q : String) (res : TranslationResult) (dt : List String),
      ((convertToGoogleFormat q res dt).Sentences ≠ [] ↔
        (Langutil.Includes dt "t" = true ∨ Langutil.Includes dt "rm" = true)) ∧
      ((convertToGoogleFormat q res dt).Dict ≠ [] ↔
        Langutil.Includes dt "bd" = true) ∧
      (((convertToGoogleFormat q res dt).Spell).isSome = true ↔
        Langutil.Includes dt "qca" = true) ∧
      (((convertToGoogleFormat q res dt).Examples).isSome = true ↔
        Langutil.Includes dt "ex" = true)) ∧
    (∀ q sl tl, (buildErrorResponse q sl tl).Sentences.length = 1) ∧
    (∀ e : CachedTranslation, (buildResponseFromCache e).Sentences.length = 1) := by
  refine ⟨?_, fun q sl tl => rfl, ?_⟩
  · intro q res dt
    simp only [convertToGoogleFormat]
    repeat' split
    all_goals simp_all
  · intro e
    simp only [buildResponseFromCache]
    split <;> rfl

/-! ### C6: key derivation -/

/-- Every byte emitted for one hash word is below 256. -/
theorem wordBytes_mem_lt (w : Nat) : ∀ x ∈ wordBytes w, x < 256 := by
  intro x hx
  simp [wordBytes] at hx
  rcases hx with rfl | rfl | rfl | rfl <;> exact Nat.mod_lt _ (by norm_num)

/-- The SHA-256 digest has 32 bytes. -/
theorem sha256Bytes_length (msg : List Nat) : (sha256Bytes msg).length = 32 := by
  simp [sha256Bytes, wordBytes]

/-- Every byte of the SHA-256 digest is below 256. -/
theorem sha256Bytes_mem_lt (msg : List Nat) : ∀ x ∈ sha256Bytes msg, x < 256 := by
  intro x hx
  simp only [sha256Bytes, List.mem_append] at hx
  rcases hx with ((((((h | h) | h) | h) | h) | h) | h) | h <;>
    exact wordBytes_mem_lt _ x h

/-- The truncated digest has exactly 8 bytes. -/
theorem digest8_length (t : String) : (digest8 t).length = 8 := by
  simp [digest8, sha256Bytes_length]

/-- Every truncated-digest byte is below 256. -/
theorem digest8_mem_lt (t : String) : ∀ x ∈ digest8 t, x < 256 :=
  fun x hx => sha256Bytes_mem_lt _ x (List.take_subset _ _ hx)

/-- Indexing the truncated digest stays below 256. -/
theorem digest8_getD_lt (t : String) (i : Nat) : (digest8 t).getD i 0 < 256 := by
  by_cases h : i < (digest8 t).length
  · rw [List.getD_eq_getElem _ _ h]
    exact digest8_mem_lt t _ (List.getElem_mem h)
  · rw [List.getD_eq_default _ _ (by omega)]
    norm_num

/-- Dropping the space-prefix of an all-'a' list is the identity. -/
theorem dropWhile_replicate_a (k : Nat) :
    List.dropWhile isSpaceGo (List.replicate k 'a') = List.replicate k 'a' := by
  induction k with
  | zero => rfl
  | succ k ih =>
    rw [List.replicate_succ, List.dropWhile_cons]
    norm_num [show isSpaceGo 'a' = false from rfl]

/-- `textN` texts carry no surrounding white space. -/
theorem trim_textN (n : Nat) : goTrimSpace (textN n) = textN n := by
  show String.mk
      (((List.replicate (n + 1) 'a').dropWhile isSpaceGo).reverse.dropWhile
        isSpaceGo).reverse = textN n
  rw [dropWhile_replicate_a, List.reverse_replicate, dropWhile_replicate_a,
    List.reverse_replicate]
  rfl

/-- `textN` is injective. -/
theorem textN_inj {m n : Nat} (h : textN m = textN n) : m = n := by
  have hlen := congrArg (fun s => s.data.length) h
  simp [textN] at hlen
  omega

/-- The isolated-scope key at the fixed normalized inputs, as a function of
the truncated digest. -/
theorem generate_shape (svc t : String) :
    Generate false svc t "auto" "en" "" =
      keyNamespace ++ ":" ++ goToLower svc ++ ":" ++ hexEncode (digest8 t) := rfl

/-- Two texts with different normalized forms can collide on the cache key:
the digest is truncated to 8 bytes, so the key ranges over a finite set while
the normalized texts do not (pigeonhole). -/
theorem generate_collision : ∃ t1 t2 : String,
    goTrimSpace t1 ≠ goTrimSpace t2 ∧
    Generate false "DeepLX" t1 "auto" "en" "" =
      Generate false "DeepLX" t2 "auto" "en" "" := by
  obtain ⟨m, n, hmn, heq⟩ :=
    Finite.exists_ne_map_eq_of_infinite (fun k : Nat => packFn (textN k))
  refine ⟨textN m, textN n, ?_, ?_⟩
  · rw [trim_textN, trim_textN]
    intro hc
    exact hmn (textN_inj hc)
  · have hlists : digest8 (textN m) = digest8 (textN n) := by
      apply List.ext_get
      · rw [digest8_length, digest8_length]
      · intro i h1 h2
        have hi8 : i < 8 := by rwa [digest8_length] at h1
        have hfin := congrFun heq ⟨i, hi8⟩
        have hval : (digest8 (textN m)).getD i 0 % 256 =
            (digest8 (textN n)).getD i 0 % 256 := congrArg Fin.val hfin
        rw [Nat.mod_eq_of_lt (digest8_getD_lt _ _),
          Nat.mod_eq_of_lt (digest8_getD_lt _ _)] at hval
        simp only [List.get_eq_getElem]
        rw [← List.getD_eq_getElem _ 0 h1, ← List.getD_eq_getElem _ 0 h2]
        exact hval
    rw [generate_shape, generate_shape, hlists]

/-- C6 is false as stated in its injectivity part: it is NOT the case that
varying the normalized text always changes the key — two texts with distinct
normalized forms share a key, because the digest is truncated to 8 bytes. -/
theorem C6_counterexample :
    ¬ ∀ t1 t2 : String, goTrimSpace t1 ≠ goTrimSpace t2 →
        Generate false "DeepLX" t1 "auto" "en" "" ≠
          Generate false "DeepLX" t2 "auto" "en" "" := by
  intro hall
  obtain ⟨t1, t2, hne, heq⟩ := generate_collision
  exact hall t1 t2 hne heq

/-- C6 (amended): key derivation is a pure function of (scope, normalized
text, source, target, model): inputs identical after normalization always
yield the identical key, and the key the decorator uses is independent of the
requested field set; but the converse fails — the digest is truncated to
8 bytes, so two requests with different normalized texts can collide on the
same key (pigeonhole over the finite key space). -/
theorem C6_key_derivation :
    (∀ (share : Bool) (svc t1 sl1 tl1 m1 t2 sl2 tl2 m2 : String),
        normalizedInput t1 sl1 tl1 m1 = normalizedInput t2 sl2 tl2 m2 →
        Generate share svc t1 sl1 tl1 m1 = Generate share svc t2 sl2 tl2 m2) ∧
    (∀ (cfg : CachedConfig) (svcName : String) (env : DecoratorEnv)
        (q sl tl model : String) (dt dt2 : List String),
        (TranslateWithModel cfg svcName env q sl tl dt model).key =
          (TranslateWithModel cfg svcName env q sl tl dt2 model).key) ∧
    (∃ t1 t2 : String, goTrimSpace t1 ≠ goTrimSpace t2 ∧
        Generate false "DeepLX" t1 "auto" "en" "" =
          Generate false "DeepLX" t2 "auto" "en" "") := by
  refine ⟨?_, fun _ _ _ _ _ _ _ _ _ => rfl, generate_collision⟩
  intro share svc t1 sl1 tl1 m1 t2 sl2 tl2 m2 h
  simp [Generate, computeHash, h]

/-- Witness for C6 (amended): two raw inputs that differ only by trimming
and case folding have equal normalized forms, and the theorem yields equal
keys for them. -/
theorem C6_witness :
    (normalizedInput " Hello" "EN" "zh" "" = normalizedInput "Hello " "en" "ZH" "") ∧
    Generate false "DeepLX" " Hello" "EN" "zh" "" =
      Generate false "DeepLX" "Hello " "en" "ZH" "" :=
  ⟨by decide,
    C6_key_derivation.1 false "DeepLX" " Hello" "EN" "zh" "" "Hello " "en" "ZH" ""
      (by decide)⟩

end CacheSvc

/-! ## Claims about the language heuristic -/

namespace Langutil

/-- The per-character cascade of `DetectLanguage` agrees with the
first-recognized-character reading of the scan. -/
theorem detectScan_eq_firstScriptScan : ∀ l : List Char,
    detectScan l = firstScriptScan l := by
  intro l
  induction l with
  | nil => rfl
  | cons r rest ih =>
    by_cases h1 : IsCJK r
    · simp [detectScan, firstScriptScan, recognizedScript, scriptCode, h1]
    · by_cases h2 : IsCyrillic r
      · simp [detectScan, firstScriptScan, recognizedScript, scriptCode, h1, h2]
      · by_cases h3 : IsJapanese r
        · simp [detectScan, firstScriptScan, recognizedScript, scriptCode, h1, h2, h3]
        · by_cases h4 : IsKorean r
          · simp [detectScan, firstScriptScan, recognizedScript, scriptCode,
              h1, h2, h3, h4]
          · simp only [detectScan, h1, h2, h3, h4, if_neg, ite_false]
            rw [ih]
            simp [firstScriptScan, recognizedScript, h1, h2, h3, h4]

/-- C9 is false as stated: the requested language `" "` is non-empty and is
not the auto sentinel, yet `DetectLanguage` does not return its normalized
form (`" "`) — it falls back to the scan and returns "en". -/
theorem C9_counterexample :
    (" " : String) ≠ "" ∧ goEqualFold " " "auto" = false ∧
    DetectLanguage "" " " = "en" ∧ NormalizeLanguageCode " " ≠ "en" := by
  refine ⟨by decide, by decide, by decide, by decide⟩

/-- C9 (amended): `DetectLanguage` is a total function; when the requested
language is non-empty AFTER TRIMMING WHITE SPACE and is not the
(case-insensitive) auto sentinel it returns the normalized requested code;
otherwise it scans the text's characters in order and returns the script
code of the first character falling in a recognized range ("zh-CN" for CJK
ideographs, "ru" for Cyrillic, "ja" for kana, "ko" for Hangul), and "en"
when no character matches. -/
theorem C9_detect_language (text requested : String) :
    DetectLanguage text requested =
      if goTrimSpace requested ≠ "" && !goEqualFold requested "auto" then
        NormalizeLanguageCode requested
      else firstScriptScan text.data := by
  unfold DetectLanguage
  split
  · rfl
  · exact detectScan_eq_firstScriptScan text.data

end Langutil

end TranslateServices
